import Mathlib

set_option autoImplicit false

/-!
Shallow embedding of the hyperbridge light-client verification core.

The repository ships `primitives/src/types.rs`, which declares the data model
(headers, proofs, light-client state, updates) together with the fixed
generalized-index protocol constants. The verification pipeline itself
(Merkle multi-proof verifier, the per-proof checkers and the update
orchestrator) is described in the accompanying specification but its code is
not part of the shipped sources, so those components are modelled here from
the specification text and are marked as such in their doc comments. The
data types and the numeric constants below are transcribed from
`primitives/src/types.rs`.

Hashes are 32-byte values treated as opaque by the verifier; we model them as
natural numbers. The hash-tree-root primitive and the BLS signature primitive
are external collaborators in the specification, so they enter the model as
explicit function parameters bundled in the `Crypto` structure.
-/

/-- 32-byte hash value, treated as opaque data by the verifier. -/
abbrev Hash32 := Nat

/-- Beacon chain slot number (u64 in the source). -/
abbrev Slot := Nat

/-- Beacon chain epoch number (u64 in the source). -/
abbrev Epoch := Nat

/-- From types.rs: generalized index of the finalized root. -/
def FINALIZED_ROOT_INDEX : Nat := 52

/-- From types.rs: generalized index of the state root inside the execution payload. -/
def EXECUTION_PAYLOAD_STATE_ROOT_INDEX : Nat := 18

/-- From types.rs: generalized index of the block number inside the execution payload. -/
def EXECUTION_PAYLOAD_BLOCK_NUMBER_INDEX : Nat := 22

/-- From types.rs: generalized index of the execution payload in the block body. -/
def EXECUTION_PAYLOAD_INDEX : Nat := 56

/-- From types.rs: generalized index of the next sync committee in the beacon state. -/
def NEXT_SYNC_COMMITTEE_INDEX : Nat := 55

/-- From types.rs: generalized index of block_roots in the beacon state. -/
def BLOCK_ROOTS_INDEX : Nat := 37

/-- From types.rs: generalized index of block_roots in a HistoricalBatch.
The source literally defines this constant as 0. -/
def HISTORICAL_BATCH_BLOCK_ROOTS_INDEX : Nat := 0

/-- From types.rs: generalized index of historical_roots in the beacon state. -/
def HISTORICAL_ROOTS_INDEX : Nat := 39

/-- Beacon block header, the fixed-shape record identifying one beacon block
(fields as in ethereum_consensus bellatrix). -/
structure BeaconBlockHeader where
  slot : Slot
  proposer_index : Nat
  parent_root : Hash32
  state_root : Hash32
  body_root : Hash32
deriving DecidableEq

/-- Sync committee: ordered validator public keys plus an aggregate key. -/
structure SyncCommittee where
  public_keys : List Nat
  aggregate_public_key : Nat
deriving DecidableEq

/-- Participation bits and aggregate signature (ethereum_consensus bellatrix). -/
structure SyncAggregate where
  sync_committee_bits : List Bool
  sync_committee_signature : Nat
deriving DecidableEq

/-- From types.rs: data required to prove the state root in the execution payload. -/
structure ExecutionPayloadProof where
  state_root : Hash32
  block_number : Nat
  multi_proof : List Hash32
  execution_payload_branch : List Hash32
deriving DecidableEq

/-- From types.rs: proof for a header in a block_roots list. -/
structure BlockRootsProof where
  block_header_index : Nat
  block_header_branch : List Hash32
deriving DecidableEq

/-- From types.rs: the block header ancestry proof, an enum because the header
may either exist in state.block_roots or in state.historical_roots. -/
inductive AncestryProof where
  | BlockRoots (block_roots_proof : BlockRootsProof) (block_roots_branch : List Hash32)
  | HistoricalRoots (block_roots_proof : BlockRootsProof)
      (historical_batch_proof : List Hash32)
      (historical_roots_proof : List Hash32)
      (historical_roots_index : Nat)
      (historical_roots_branch : List Hash32)
deriving DecidableEq

/-- From types.rs: one claimed ancestor of the finalized header. -/
structure AncestorBlock where
  header : BeaconBlockHeader
  execution_payload : ExecutionPayloadProof
  ancestry_proof : AncestryProof
deriving DecidableEq

/-- From types.rs: the latest sync committee plus an ssz proof of its
existence in a finalized header. -/
structure SyncCommitteeUpdate where
  next_sync_committee : SyncCommittee
  next_sync_committee_branch : List Hash32
deriving DecidableEq

/-- From types.rs: minimum state required by the light client. -/
structure LightClientState where
  finalized_header : BeaconBlockHeader
  current_sync_committee : SyncCommittee
  next_sync_committee : SyncCommittee
deriving DecidableEq

/-- From types.rs: epoch that was finalized together with the ssz merkle
proof for the finalized checkpoint in the attested header. -/
structure FinalityProof where
  finalized_epoch : Epoch
  finality_branch : List Hash32
deriving DecidableEq

/-- From types.rs: data required to advance the state of the light client. -/
structure LightClientUpdate where
  attested_header : BeaconBlockHeader
  sync_committee_update : Option SyncCommitteeUpdate
  finalized_header : BeaconBlockHeader
  execution_payload : ExecutionPayloadProof
  finality_proof : FinalityProof
  sync_aggregate : SyncAggregate
  signature_slot : Slot
  ancestor_blocks : List AncestorBlock
deriving DecidableEq

/-- Tagged rejection reasons, from the error taxonomy of the specification. -/
inductive VerificationError where
  | MalformedProof
  | RootMismatch
  | AncestryVariantInconsistent
  | FinalityLagViolation
  | InsufficientParticipation
  | SignatureInvalid
  | StaleUpdate
deriving DecidableEq

/-- Modelled from the spec: the external collaborators (hash-tree-root and
signature primitives, quorum threshold) that the checkers consume as black
boxes, passed explicitly as configuration. -/
structure Crypto where
  hashNode : Hash32 → Hash32 → Hash32
  headerRoot : BeaconBlockHeader → Hash32
  committeeRoot : SyncCommittee → Hash32
  checkSignature : SyncCommittee → SyncAggregate → BeaconBlockHeader → Slot → Bool
  quorum : Nat

/-- Insert a node keeping the list sorted by descending generalized index. -/
def insertNode (p : Nat × Hash32) : List (Nat × Hash32) → List (Nat × Hash32)
  | [] => [p]
  | q :: qs => if q.fst ≤ p.fst then p :: q :: qs else q :: insertNode p qs

/-- Sort leaves by descending generalized index (deepest and rightmost first). -/
def sortNodes (l : List (Nat × Hash32)) : List (Nat × Hash32) :=
  l.foldr insertNode []

/-- Fuel bound for the multi-proof walk: the sum of all indices dominates the
number of steps, since every step strictly decreases that sum. -/
def stepSum (l : List (Nat × Hash32)) : Nat :=
  l.foldr (fun p acc => p.fst + acc) 0

/-- Hash a node value with its sibling, respecting left/right orientation. -/
def mergeUp (h : Hash32 → Hash32 → Hash32) (i : Nat) (v b : Hash32) : Hash32 :=
  if i % 2 == 0 then h v b else h b v

/-- Modelled from the spec: the core walk of the Merkle multi-proof verifier.
Nodes are kept sorted by descending generalized index; the deepest node is
merged with its sibling if that sibling is already known, otherwise one
branch hash is consumed as the sibling. Returns the recomputed root and the
unconsumed branch remainder, or none when the branch is exhausted before the
root is reached or the node set is malformed. -/
def computeAux (h : Hash32 → Hash32 → Hash32) :
    Nat → List (Nat × Hash32) → List Hash32 → Option (Hash32 × List Hash32)
  | 0, _, _ => none
  | _ + 1, [], _ => none
  | _ + 1, [(1, v)], branch => some (v, branch)
  | fuel + 1, (i, v) :: rest, branch =>
    if i ≤ 1 then none
    else
      match rest with
      | (j, w) :: rest2 =>
        if i % 2 == 1 && j + 1 == i then
          computeAux h fuel (insertNode (i / 2, h w v) rest2) branch
        else
          match branch with
          | [] => none
          | b :: bs => computeAux h fuel (insertNode (i / 2, mergeUp h i v b) rest) bs
      | [] =>
        match branch with
        | [] => none
        | b :: bs => computeAux h fuel (insertNode (i / 2, mergeUp h i v b) []) bs

/-- Modelled from the spec: reconstruct the root from (generalized index,
value) pairs and a branch of sibling hashes, in the SSZ multi-proof visiting
order. Returns the recomputed root and the unused branch suffix, or none if
the branch is exhausted before the root is reached. -/
def computeMultiRoot (h : Hash32 → Hash32 → Hash32) (leaves : List (Nat × Hash32))
    (branch : List Hash32) : Option (Hash32 × List Hash32) :=
  computeAux h (stepSum leaves + leaves.length + 1) (sortNodes leaves) branch

/-- Modelled from the spec: generalized indices are 1-based and must lie
within the tree bounds given by the depth; index 0 is never valid. -/
def indicesInBounds (depth : Nat) (leaves : List (Nat × Hash32)) : Bool :=
  leaves.all (fun p => decide (1 ≤ p.fst) && decide (p.fst < 2 ^ (depth + 1)))

/-- Modelled from the spec: resolve a multi-proof to its recomputed root.
Out-of-bounds indices, branch exhaustion and leftover branch entries are all
proof-shape failures, reported as MalformedProof. -/
def resolveRoot (h : Hash32 → Hash32 → Hash32) (depth : Nat)
    (leaves : List (Nat × Hash32)) (branch : List Hash32) :
    Except VerificationError Hash32 :=
  if indicesInBounds depth leaves then
    match computeMultiRoot h leaves branch with
    | none => Except.error VerificationError.MalformedProof
    | some (r, rest) =>
      if rest.isEmpty then Except.ok r
      else Except.error VerificationError.MalformedProof
  else Except.error VerificationError.MalformedProof

/-- Modelled from the spec: resolve a multi-proof and compare the recomputed
root with an expected commitment; a disagreeing root is a RootMismatch. -/
def checkBranch (h : Hash32 → Hash32 → Hash32) (depth : Nat)
    (leaves : List (Nat × Hash32)) (branch : List Hash32) (expected : Hash32) :
    Except VerificationError Unit :=
  match resolveRoot h depth leaves branch with
  | Except.error e => Except.error e
  | Except.ok r => if r = expected then Except.ok () else Except.error VerificationError.RootMismatch

/-- Modelled from the spec: the boolean contract of the Merkle multi-proof
verifier. Total by construction; returns false when the branch is exhausted
before the root is reached, when unused branch entries remain, when any index
is out of the tree bounds, or when the recomputed root mismatches. -/
def verify (h : Hash32 → Hash32 → Hash32) (leaves : List (Nat × Hash32))
    (branch : List Hash32) (claimed_root : Hash32) (tree_depth : Nat) : Bool :=
  match resolveRoot h tree_depth leaves branch with
  | Except.error _ => false
  | Except.ok r => r == claimed_root

/-- Modelled from the spec: sequence two fallible checks, short-circuiting on
the first tagged failure. -/
def seqE (a b : Except VerificationError Unit) : Except VerificationError Unit :=
  match a with
  | Except.error e => Except.error e
  | Except.ok _ => b

/-- Modelled from the spec: slots per epoch, the protocol constant used to
derive the epoch of a header from its slot. -/
def SLOTS_PER_EPOCH : Nat := 32

/-- Modelled from the spec: number of slots covered by one historical batch,
the roughly 8192-slot span of block_roots. -/
def SLOTS_PER_HISTORICAL_ROOT : Nat := 8192

/-- Modelled from the spec: the epoch a slot belongs to. -/
def epochAtSlot (s : Slot) : Epoch := s / SLOTS_PER_EPOCH

/-- Modelled from the spec, section 4.2: the Execution-Payload Proof Checker.
First the state root and block number resolve at their fixed generalized
indices to the execution payload root via multi_proof, then that payload root
resolves at the fixed EXECUTION_PAYLOAD index to the owning header body root
via execution_payload_branch. -/
def checkExecutionPayload (c : Crypto) (header : BeaconBlockHeader)
    (ep : ExecutionPayloadProof) : Except VerificationError Unit :=
  match resolveRoot c.hashNode 4
      [(EXECUTION_PAYLOAD_STATE_ROOT_INDEX, ep.state_root),
       (EXECUTION_PAYLOAD_BLOCK_NUMBER_INDEX, ep.block_number)] ep.multi_proof with
  | Except.error e => Except.error e
  | Except.ok payloadRoot =>
    checkBranch c.hashNode 5 [(EXECUTION_PAYLOAD_INDEX, payloadRoot)]
      ep.execution_payload_branch header.body_root

/-- Modelled from the spec, section 4.3, BlockRoots arm: the ancestor header
root resolves at block_header_index to a block_roots commitment, which then
resolves at the fixed BLOCK_ROOTS index to the finalized state root. -/
def checkBlockRootsCase (c : Crypto) (finalized : BeaconBlockHeader) (hroot : Hash32)
    (brp : BlockRootsProof) (block_roots_branch : List Hash32) :
    Except VerificationError Unit :=
  match resolveRoot c.hashNode 63 [(brp.block_header_index, hroot)] brp.block_header_branch with
  | Except.error e => Except.error e
  | Except.ok commitment =>
    checkBranch c.hashNode 5 [(BLOCK_ROOTS_INDEX, commitment)]
      block_roots_branch finalized.state_root

/-- Modelled from the spec, section 4.3, HistoricalRoots arm: the index must
stay below the number of historical batches implied by the finalized slot
(an out-of-range index is a validation failure, not a fault), then the
ancestor header root resolves through the batch block_roots commitment, the
batch root, the historical_roots commitment and finally the finalized state
root at the fixed HISTORICAL_ROOTS index. -/
def checkHistoricalCase (c : Crypto) (finalized : BeaconBlockHeader) (hroot : Hash32)
    (brp : BlockRootsProof) (historical_batch_proof : List Hash32)
    (historical_roots_proof : List Hash32) (historical_roots_index : Nat)
    (historical_roots_branch : List Hash32) : Except VerificationError Unit :=
  if historical_roots_index < finalized.slot / SLOTS_PER_HISTORICAL_ROOT then
    match resolveRoot c.hashNode 63 [(brp.block_header_index, hroot)] brp.block_header_branch with
    | Except.error e => Except.error e
    | Except.ok commitment =>
      match resolveRoot c.hashNode 63 [(HISTORICAL_BATCH_BLOCK_ROOTS_INDEX, commitment)]
          historical_batch_proof with
      | Except.error e => Except.error e
      | Except.ok batchRoot =>
        match resolveRoot c.hashNode 63 [(historical_roots_index, batchRoot)]
            historical_roots_proof with
        | Except.error e => Except.error e
        | Except.ok hrCommitment =>
          checkBranch c.hashNode 5 [(HISTORICAL_ROOTS_INDEX, hrCommitment)]
            historical_roots_branch finalized.state_root
  else Except.error VerificationError.MalformedProof

/-- Modelled from the spec, section 4.3: the Ancestry Proof Checker, a single
exhaustive match on the two variants with no fallback branch. -/
def checkAncestry (c : Crypto) (finalized : BeaconBlockHeader) (hroot : Hash32) :
    AncestryProof → Except VerificationError Unit
  | AncestryProof.BlockRoots brp brb => checkBlockRootsCase c finalized hroot brp brb
  | AncestryProof.HistoricalRoots brp hbp hrp idx hrb =>
    checkHistoricalCase c finalized hroot brp hbp hrp idx hrb

/-- Modelled from the spec: checking one ancestor block means checking its
ancestry proof against the finalized header and then its own execution
payload proof. -/
def checkAncestorBlock (c : Crypto) (finalized : BeaconBlockHeader)
    (ab : AncestorBlock) : Except VerificationError Unit :=
  seqE (checkAncestry c finalized (c.headerRoot ab.header) ab.ancestry_proof)
    (checkExecutionPayload c ab.header ab.execution_payload)

/-- Modelled from the spec: every ancestor is checked independently; a single
failure rejects the whole update and the empty list is vacuously valid. -/
def checkAncestors (c : Crypto) (finalized : BeaconBlockHeader) :
    List AncestorBlock → Except VerificationError Unit
  | [] => Except.ok ()
  | ab :: rest => seqE (checkAncestorBlock c finalized ab) (checkAncestors c finalized rest)

/-- Modelled from the spec, section 4.5: the Finality Proof Checker. The
finalized epoch must lag the attested header epoch by exactly two epochs,
then the checkpoint root derived from the finalized epoch and the finalized
header root resolves at the fixed FINALIZED_ROOT index to the attested
header state root. -/
def checkFinality (c : Crypto) (attested finalized : BeaconBlockHeader)
    (fp : FinalityProof) : Except VerificationError Unit :=
  if fp.finalized_epoch + 2 = epochAtSlot attested.slot then
    checkBranch c.hashNode 5
      [(FINALIZED_ROOT_INDEX, c.hashNode fp.finalized_epoch (c.headerRoot finalized))]
      fp.finality_branch attested.state_root
  else Except.error VerificationError.FinalityLagViolation

/-- Modelled from the spec, section 4.4: the Sync-Committee Update Checker.
Absence of a committee update is valid and skips the check entirely; when
present, the committee root must resolve via next_sync_committee_branch to
the finalized header state root at the fixed NEXT_SYNC_COMMITTEE index. -/
def checkSyncCommittee (c : Crypto) (finalized : BeaconBlockHeader) :
    Option SyncCommitteeUpdate → Except VerificationError Unit
  | none => Except.ok ()
  | some scu =>
    checkBranch c.hashNode 5
      [(NEXT_SYNC_COMMITTEE_INDEX, c.committeeRoot scu.next_sync_committee)]
      scu.next_sync_committee_branch finalized.state_root

/-- Number of set participation bits in a sync aggregate. -/
def countParticipants (sa : SyncAggregate) : Nat :=
  sa.sync_committee_bits.count true

/-- Modelled from the spec, section 4.6: the Signature Quorum Checker,
delegating to the external signature primitive against the currently trusted
committee; failing closed on insufficient participation or a bad signature. -/
def checkSignatureQuorum (c : Crypto) (committee : SyncCommittee)
    (u : LightClientUpdate) : Except VerificationError Unit :=
  if countParticipants u.sync_aggregate < c.quorum then
    Except.error VerificationError.InsufficientParticipation
  else if c.checkSignature committee u.sync_aggregate u.attested_header u.signature_slot then
    Except.ok ()
  else Except.error VerificationError.SignatureInvalid

/-- Modelled from the spec, section 4.7: the monotonicity guard. An update
whose finalized slot is not strictly greater than the stored finalized slot
is rejected as StaleUpdate before anything else happens. -/
def checkMonotonic (s : LightClientState) (u : LightClientUpdate) :
    Except VerificationError Unit :=
  if u.finalized_header.slot ≤ s.finalized_header.slot then
    Except.error VerificationError.StaleUpdate
  else Except.ok ()

/-- Modelled from the spec, section 4.7, step 1: structural check, the
ancestor list carries no duplicate headers (headers compared by root). -/
def structuralCheck (c : Crypto) (u : LightClientUpdate) :
    Except VerificationError Unit :=
  if (u.ancestor_blocks.map (fun ab => c.headerRoot ab.header)).Nodup then Except.ok ()
  else Except.error VerificationError.MalformedProof

/-- Modelled from the spec, section 4.7: the full check sequence of the
Update Orchestrator, short-circuiting on the first tagged failure. -/
def runChecks (c : Crypto) (s : LightClientState) (u : LightClientUpdate) :
    Except VerificationError Unit :=
  seqE (checkMonotonic s u)
    (seqE (structuralCheck c u)
      (seqE (checkExecutionPayload c u.finalized_header u.execution_payload)
        (seqE (checkAncestors c u.finalized_header u.ancestor_blocks)
          (seqE (checkFinality c u.attested_header u.finalized_header u.finality_proof)
            (seqE (checkSyncCommittee c u.finalized_header u.sync_committee_update)
              (checkSignatureQuorum c s.current_sync_committee u))))))

/-- Modelled from the spec, section 4.7, step 7: the atomic state
replacement, rotating the committees when a committee update was carried. -/
def advance (s : LightClientState) (u : LightClientUpdate) : LightClientState :=
  match u.sync_committee_update with
  | none => { s with finalized_header := u.finalized_header }
  | some scu =>
    { finalized_header := u.finalized_header,
      current_sync_committee := s.next_sync_committee,
      next_sync_committee := scu.next_sync_committee }

/-- Modelled from the spec: the Update Orchestrator. Either every check
passes and the whole new state is produced in one step, or the first tagged
failure is returned. -/
def applyUpdate (c : Crypto) (s : LightClientState) (u : LightClientUpdate) :
    Except VerificationError LightClientState :=
  match runChecks c s u with
  | Except.error e => Except.error e
  | Except.ok _ => Except.ok (advance s u)

/-- Modelled from the spec: the caller-facing transition on the persisted
state; a rejected update leaves the stored state untouched and surfaces the
tagged reason. -/
def processUpdate (c : Crypto) (s : LightClientState) (u : LightClientUpdate) :
    LightClientState × Option VerificationError :=
  match applyUpdate c s u with
  | Except.ok s2 => (s2, none)
  | Except.error e => (s, some e)

/-- Decidable equality of fallible results, used to evaluate checkers on
concrete inputs. -/
instance exceptDecidableEq {ε α : Type} [DecidableEq ε] [DecidableEq α] :
    DecidableEq (Except ε α) := fun a b =>
  match a, b with
  | Except.ok x, Except.ok y =>
    if h : x = y then isTrue (by rw [h]) else isFalse (fun he => h (Except.ok.inj he))
  | Except.error x, Except.error y =>
    if h : x = y then isTrue (by rw [h]) else isFalse (fun he => h (Except.error.inj he))
  | Except.ok _, Except.error _ => isFalse (fun he => Except.noConfusion he)
  | Except.error _, Except.ok _ => isFalse (fun he => Except.noConfusion he)

theorem seqE_ok (v : Unit) (b : Except VerificationError Unit) :
    seqE (Except.ok v) b = b := rfl

theorem seqE_err (e : VerificationError) (b : Except VerificationError Unit) :
    seqE (Except.error e) b = Except.error e := rfl

/-- Concrete hash combiner used for the evaluation witnesses. -/
def hW : Hash32 → Hash32 → Hash32 := fun a b => 2 * a + 3 * b + 1

/-- Concrete external-collaborator configuration for the witnesses: an
always-accepting signature primitive and a zero quorum threshold. -/
def cfgW : Crypto :=
  { hashNode := hW,
    headerRoot := fun h => h.slot + 2 * h.state_root + 3 * h.body_root + 5,
    committeeRoot := fun cm => cm.aggregate_public_key + 7,
    checkSignature := fun _ _ _ _ => true,
    quorum := 0 }

/-- Concrete sync committee for the witnesses. -/
def committeeW (k : Nat) : SyncCommittee :=
  { public_keys := [k], aggregate_public_key := k }

/-- Concrete header for the witnesses. -/
def headerW (sl : Nat) : BeaconBlockHeader :=
  { slot := sl, proposer_index := 0, parent_root := 0, state_root := 0, body_root := 0 }

/-- Trivial execution payload proof for the witnesses. -/
def epW : ExecutionPayloadProof :=
  { state_root := 0, block_number := 0, multi_proof := [], execution_payload_branch := [] }

/-- Trivial finality proof for the witnesses. -/
def fpW : FinalityProof := { finalized_epoch := 0, finality_branch := [] }

/-- Concrete sync aggregate for the witnesses. -/
def saW : SyncAggregate := { sync_committee_bits := [true], sync_committee_signature := 0 }

/-- Concrete stored light client state for the witnesses. -/
def stateW : LightClientState :=
  { finalized_header := headerW 100,
    current_sync_committee := committeeW 1,
    next_sync_committee := committeeW 2 }

/-- A stale update: its finalized slot 50 is behind the stored slot 100. -/
def updStale : LightClientUpdate :=
  { attested_header := headerW 100,
    sync_committee_update := none,
    finalized_header := headerW 50,
    execution_payload := epW,
    finality_proof := fpW,
    sync_aggregate := saW,
    signature_slot := 0,
    ancestor_blocks := [] }

/-- Claim C1: an update whose finalized slot is not strictly greater than the
stored finalized slot is rejected as StaleUpdate, before any mutation of the
light client state and regardless of the other proofs. -/
theorem stale_update_rejected (c : Crypto) (s : LightClientState) (u : LightClientUpdate)
    (h : u.finalized_header.slot ≤ s.finalized_header.slot) :
    applyUpdate c s u = Except.error VerificationError.StaleUpdate ∧
    processUpdate c s u = (s, some VerificationError.StaleUpdate) := by
  have hm : checkMonotonic s u = Except.error VerificationError.StaleUpdate := by
    unfold checkMonotonic
    rw [if_pos h]
  have hr : runChecks c s u = Except.error VerificationError.StaleUpdate := by
    unfold runChecks
    rw [hm, seqE_err]
  exact ⟨by rw [applyUpdate, hr], by rw [processUpdate, applyUpdate, hr]⟩

theorem stale_update_rejected_witness :
    applyUpdate cfgW stateW updStale = Except.error VerificationError.StaleUpdate ∧
    processUpdate cfgW stateW updStale = (stateW, some VerificationError.StaleUpdate) :=
  stale_update_rejected cfgW stateW updStale (by decide)

/-- Claim C2: processing an update is all-or-nothing. Either every check
passes and the persisted state is replaced in one step by the fully built new
state, or a tagged reason is surfaced and the persisted state is returned
exactly as it was; no path yields a partially mutated state. -/
theorem update_atomicity (c : Crypto) (s : LightClientState) (u : LightClientUpdate) :
    (∃ s2, applyUpdate c s u = Except.ok s2 ∧ processUpdate c s u = (s2, none)) ∨
    (∃ e, applyUpdate c s u = Except.error e ∧ processUpdate c s u = (s, some e)) := by
  cases hr : runChecks c s u with
  | error e =>
    right
    refine ⟨e, ?_, ?_⟩
    · rw [applyUpdate, hr]
    · rw [processUpdate, applyUpdate, hr]
  | ok v =>
    left
    refine ⟨advance s u, ?_, ?_⟩
    · rw [applyUpdate, hr]
    · rw [processUpdate, applyUpdate, hr]

/-- Claim C3: the Merkle multi-proof verifier is a total boolean function
(it is a Lean function into Bool, so it can neither throw nor fault), and it
returns false whenever the walk exhausts the branch before reaching the root,
whenever unused branch entries remain after the root is reached, and whenever
the recomputed root differs from the claimed root. -/
theorem verify_false_on_malformed_or_mismatch (h : Hash32 → Hash32 → Hash32)
    (leaves : List (Nat × Hash32)) (branch : List Hash32) (claimed_root : Hash32)
    (tree_depth : Nat)
    (hcase : computeMultiRoot h leaves branch = none
      ∨ (∃ r rest, computeMultiRoot h leaves branch = some (r, rest) ∧ rest ≠ [])
      ∨ (∃ r, computeMultiRoot h leaves branch = some (r, []) ∧ r ≠ claimed_root)) :
    verify h leaves branch claimed_root tree_depth = false := by
  rw [verify, resolveRoot]
  by_cases hb : indicesInBounds tree_depth leaves
  · rw [if_pos hb]
    rcases hcase with h1 | ⟨r, rest, h2, hne⟩ | ⟨r, h3, hne⟩
    · rw [h1]
    · obtain ⟨a, t, hrest⟩ := List.exists_cons_of_ne_nil hne
      subst hrest
      rw [h2]
      rfl
    · rw [h3]
      show (r == claimed_root) = false
      exact beq_eq_false_iff_ne.mpr hne
  · rw [if_neg hb]

theorem verify_false_witness :
    verify hW [(2, 5)] [] 9 1 = false :=
  verify_false_on_malformed_or_mismatch hW [(2, 5)] [] 9 1 (Or.inl (by decide))

/-- Claim C4: an ancestry proof is exactly one of the two variants BlockRoots
and HistoricalRoots, never both and never neither, and the Ancestry Proof
Checker dispatches on exactly these two cases with no fallback branch. -/
theorem ancestry_proof_two_variants (p : AncestryProof) :
    ((∃ brp brb, p = AncestryProof.BlockRoots brp brb ∧
        ∀ c fin r, checkAncestry c fin r p = checkBlockRootsCase c fin r brp brb) ∧
      (∀ q hbp hrp idx hrb, p ≠ AncestryProof.HistoricalRoots q hbp hrp idx hrb)) ∨
    ((∃ q hbp hrp idx hrb, p = AncestryProof.HistoricalRoots q hbp hrp idx hrb ∧
        ∀ c fin r, checkAncestry c fin r p = checkHistoricalCase c fin r q hbp hrp idx hrb) ∧
      (∀ brp brb, p ≠ AncestryProof.BlockRoots brp brb)) := by
  cases p with
  | BlockRoots brp brb =>
    left
    exact ⟨⟨brp, brb, rfl, fun _ _ _ => rfl⟩,
      fun _ _ _ _ _ he => AncestryProof.noConfusion he⟩
  | HistoricalRoots q hbp hrp idx hrb =>
    right
    exact ⟨⟨q, hbp, hrp, idx, hrb, rfl, fun _ _ _ => rfl⟩,
      fun _ _ he => AncestryProof.noConfusion he⟩

/-- Claim C7: the Finality Proof Checker accepts only when the finalized
epoch lags the attested header epoch by exactly two epochs; any other
relationship is rejected as FinalityLagViolation. -/
theorem finality_lag_exactly_two (c : Crypto) (attested finalized : BeaconBlockHeader)
    (fp : FinalityProof) :
    (fp.finalized_epoch + 2 ≠ epochAtSlot attested.slot →
      checkFinality c attested finalized fp =
        Except.error VerificationError.FinalityLagViolation) ∧
    (checkFinality c attested finalized fp = Except.ok () →
      fp.finalized_epoch + 2 = epochAtSlot attested.slot) := by
  constructor
  · intro hne
    rw [checkFinality, if_neg hne]
  · intro hok
    by_contra hne
    rw [checkFinality, if_neg hne] at hok
    exact Except.noConfusion hok

theorem finality_lag_witness :
    checkFinality cfgW (headerW 100) (headerW 50) fpW =
      Except.error VerificationError.FinalityLagViolation :=
  (finality_lag_exactly_two cfgW (headerW 100) (headerW 50) fpW).1 (by decide)

/-- Claim C8: a missing sync committee update skips the Sync-Committee Update
Checker entirely and never causes rejection by itself, while a present update
is accepted exactly by resolving the committee root through its branch to the
finalized header state root at the fixed NEXT_SYNC_COMMITTEE index. -/
theorem sync_committee_update_optional (c : Crypto) (finalized : BeaconBlockHeader) :
    checkSyncCommittee c finalized none = Except.ok () ∧
    ∀ scu, checkSyncCommittee c finalized (some scu) =
      checkBranch c.hashNode 5
        [(NEXT_SYNC_COMMITTEE_INDEX, c.committeeRoot scu.next_sync_committee)]
        scu.next_sync_committee_branch finalized.state_root :=
  ⟨rfl, fun _ => rfl⟩

/-- Claim C9 (code bug): the source sets HISTORICAL_BATCH_BLOCK_ROOTS_INDEX
to 0, but generalized indices are 1-based with the root at index 1, so 0 is
not a valid generalized index; supplied to the verifier it is out of tree
bounds for every depth and can never resolve to a root. -/
theorem historical_batch_index_is_zero :
    HISTORICAL_BATCH_BLOCK_ROOTS_INDEX = 0 ∧
    ∀ (h : Hash32 → Hash32 → Hash32) (depth : Nat) (v : Hash32) (branch : List Hash32),
      resolveRoot h depth [(HISTORICAL_BATCH_BLOCK_ROOTS_INDEX, v)] branch =
        Except.error VerificationError.MalformedProof :=
  ⟨rfl, fun _ _ _ _ => rfl⟩

/-- Claim C10: an empty ancestor list is structurally valid; with no
ancestors the per-ancestor checks hold vacuously and the update verdict is
decided solely by the remaining checks of the pipeline. -/
theorem empty_ancestors_vacuous (c : Crypto) (s : LightClientState) (u : LightClientUpdate)
    (h : u.ancestor_blocks = []) :
    checkAncestors c u.finalized_header u.ancestor_blocks = Except.ok () ∧
    runChecks c s u =
      seqE (checkMonotonic s u)
        (seqE (structuralCheck c u)
          (seqE (checkExecutionPayload c u.finalized_header u.execution_payload)
            (seqE (checkFinality c u.attested_header u.finalized_header u.finality_proof)
              (seqE (checkSyncCommittee c u.finalized_header u.sync_committee_update)
                (checkSignatureQuorum c s.current_sync_committee u))))) := by
  constructor
  · rw [h]
    rfl
  · unfold runChecks
    rw [h]
    rfl

theorem empty_ancestors_vacuous_witness :
    checkAncestors cfgW updStale.finalized_header updStale.ancestor_blocks = Except.ok () ∧
    runChecks cfgW stateW updStale =
      seqE (checkMonotonic stateW updStale)
        (seqE (structuralCheck cfgW updStale)
          (seqE (checkExecutionPayload cfgW updStale.finalized_header updStale.execution_payload)
            (seqE (checkFinality cfgW updStale.attested_header updStale.finalized_header
                updStale.finality_proof)
              (seqE (checkSyncCommittee cfgW updStale.finalized_header
                  updStale.sync_committee_update)
                (checkSignatureQuorum cfgW stateW.current_sync_committee updStale))))) :=
  empty_ancestors_vacuous cfgW stateW updStale rfl

/-- Extract the root from a resolution result, defaulting to 0; used only to
build the concrete witness inputs whose commitments must match by
construction. -/
def rootOf (e : Except VerificationError Hash32) : Hash32 :=
  match e with
  | Except.ok r => r
  | Except.error _ => 0

/-- Concrete committee update carried by the witness update. -/
def scuW : SyncCommitteeUpdate :=
  { next_sync_committee := committeeW 3,
    next_sync_committee_branch := [11, 12, 13, 14, 15] }

/-- Finalized state root of the witness update, built so that the committee
branch genuinely resolves to it. -/
def finStateRootW : Hash32 :=
  rootOf (resolveRoot hW 5
    [(NEXT_SYNC_COMMITTEE_INDEX, cfgW.committeeRoot scuW.next_sync_committee)]
    scuW.next_sync_committee_branch)

/-- Execution payload proof of the witness update. -/
def epOkW : ExecutionPayloadProof :=
  { state_root := 21, block_number := 9,
    multi_proof := [31, 32, 33, 34, 35],
    execution_payload_branch := [41, 42, 43, 44, 45] }

/-- Execution payload root recomputed from the witness multi proof. -/
def payloadRootW : Hash32 :=
  rootOf (resolveRoot hW 4
    [(EXECUTION_PAYLOAD_STATE_ROOT_INDEX, epOkW.state_root),
     (EXECUTION_PAYLOAD_BLOCK_NUMBER_INDEX, epOkW.block_number)] epOkW.multi_proof)

/-- Body root of the witness finalized header, built so the payload branch
genuinely resolves to it. -/
def finBodyRootW : Hash32 :=
  rootOf (resolveRoot hW 5 [(EXECUTION_PAYLOAD_INDEX, payloadRootW)]
    epOkW.execution_payload_branch)

/-- Finalized header of the witness update. -/
def finHeaderW : BeaconBlockHeader :=
  { slot := 200, proposer_index := 0, parent_root := 0,
    state_root := finStateRootW, body_root := finBodyRootW }

/-- Finality proof of the witness update: epoch 4, so it lags the attested
header at slot 192 (epoch 6) by exactly two epochs. -/
def fpOkW : FinalityProof := { finalized_epoch := 4, finality_branch := [51, 52, 53, 54, 55] }

/-- Attested state root of the witness update, built so the finality branch
genuinely resolves the checkpoint root to it. -/
def attStateRootW : Hash32 :=
  rootOf (resolveRoot hW 5
    [(FINALIZED_ROOT_INDEX, hW fpOkW.finalized_epoch (cfgW.headerRoot finHeaderW))]
    fpOkW.finality_branch)

/-- Attested header of the witness update. -/
def attHeaderW : BeaconBlockHeader :=
  { slot := 192, proposer_index := 0, parent_root := 0,
    state_root := attStateRootW, body_root := 0 }

/-- Fully valid witness update carrying a committee update and no ancestors. -/
def updRotW : LightClientUpdate :=
  { attested_header := attHeaderW,
    sync_committee_update := some scuW,
    finalized_header := finHeaderW,
    execution_payload := epOkW,
    finality_proof := fpOkW,
    sync_aggregate := saW,
    signature_slot := 0,
    ancestor_blocks := [] }

/-- Expected state after applying the rotation witness update. -/
def stateRotW : LightClientState :=
  { finalized_header := finHeaderW,
    current_sync_committee := committeeW 2,
    next_sync_committee := committeeW 3 }

/-- Claim C6: a successfully applied update carrying a committee update
rotates the committees: the new current committee is the previous next
committee, the new next committee is the one brought by the update, and the
finalized header is replaced; subsequent signature checks therefore run
against the rotated current committee. -/
theorem committee_rotation (c : Crypto) (s : LightClientState) (u : LightClientUpdate)
    (scu : SyncCommitteeUpdate) (s2 : LightClientState)
    (hok : applyUpdate c s u = Except.ok s2)
    (hscu : u.sync_committee_update = some scu) :
    s2.current_sync_committee = s.next_sync_committee ∧
    s2.next_sync_committee = scu.next_sync_committee ∧
    s2.finalized_header = u.finalized_header := by
  unfold applyUpdate at hok
  cases hr : runChecks c s u with
  | error e =>
    rw [hr] at hok
    exact Except.noConfusion hok
  | ok v =>
    rw [hr] at hok
    have hadv : advance s u = s2 := Except.ok.inj hok
    rw [← hadv]
    unfold advance
    rw [hscu]
    exact ⟨rfl, rfl, rfl⟩

theorem committee_rotation_witness :
    stateRotW.current_sync_committee = stateW.next_sync_committee ∧
    stateRotW.next_sync_committee = scuW.next_sync_committee ∧
    stateRotW.finalized_header = updRotW.finalized_header :=
  committee_rotation cfgW stateW updRotW scuW stateRotW (by decide) rfl

/-- Witness ancestor whose HistoricalRoots index 0 is not below the batch
count implied by the finalized slot 200, which is 200 / 8192 = 0. -/
def abBadW : AncestorBlock :=
  { header := headerW 7,
    execution_payload := epW,
    ancestry_proof := AncestryProof.HistoricalRoots
      { block_header_index := 3, block_header_branch := [] } [] [] 0 [] }

/-- Witness update that is valid up to the ancestry step but carries the
out-of-range HistoricalRoots ancestor. -/
def updBadAncW : LightClientUpdate :=
  { attested_header := attHeaderW,
    sync_committee_update := none,
    finalized_header := finHeaderW,
    execution_payload := epOkW,
    finality_proof := fpOkW,
    sync_aggregate := saW,
    signature_slot := 0,
    ancestor_blocks := [abBadW] }

/-- Claim C5: a HistoricalRoots ancestry proof whose historical_roots_index
reaches or exceeds the number of historical batches implied by the finalized
slot makes the orchestrator reject the whole update as MalformedProof and
leave the stored light client state unchanged; being a total Lean function
it cannot fault on the out-of-range index. -/
theorem historical_index_out_of_range (c : Crypto) (s : LightClientState)
    (u : LightClientUpdate) (ab : AncestorBlock) (brp : BlockRootsProof)
    (hbp hrp hrb : List Hash32) (idx : Nat)
    (hslot : s.finalized_header.slot < u.finalized_header.slot)
    (hnd : structuralCheck c u = Except.ok ())
    (hexec : checkExecutionPayload c u.finalized_header u.execution_payload = Except.ok ())
    (habs : u.ancestor_blocks = [ab])
    (hap : ab.ancestry_proof = AncestryProof.HistoricalRoots brp hbp hrp idx hrb)
    (hidx : u.finalized_header.slot / SLOTS_PER_HISTORICAL_ROOT ≤ idx) :
    processUpdate c s u = (s, some VerificationError.MalformedProof) := by
  have hm : checkMonotonic s u = Except.ok () := by
    unfold checkMonotonic
    rw [if_neg (Nat.not_le.mpr hslot)]
  have hanc : checkAncestry c u.finalized_header (c.headerRoot ab.header) ab.ancestry_proof =
      Except.error VerificationError.MalformedProof := by
    rw [hap]
    show checkHistoricalCase c u.finalized_header (c.headerRoot ab.header) brp hbp hrp idx hrb =
      Except.error VerificationError.MalformedProof
    unfold checkHistoricalCase
    rw [if_neg (Nat.not_lt.mpr hidx)]
  have hca : checkAncestors c u.finalized_header u.ancestor_blocks =
      Except.error VerificationError.MalformedProof := by
    rw [habs]
    show seqE (checkAncestorBlock c u.finalized_header ab)
      (checkAncestors c u.finalized_header []) =
      Except.error VerificationError.MalformedProof
    unfold checkAncestorBlock
    rw [hanc, seqE_err, seqE_err]
  have hr : runChecks c s u = Except.error VerificationError.MalformedProof := by
    unfold runChecks
    rw [hm, seqE_ok, hnd, seqE_ok, hexec, seqE_ok, hca, seqE_err]
  rw [processUpdate, applyUpdate, hr]

theorem historical_index_out_of_range_witness :
    processUpdate cfgW stateW updBadAncW = (stateW, some VerificationError.MalformedProof) :=
  historical_index_out_of_range cfgW stateW updBadAncW abBadW
    { block_header_index := 3, block_header_branch := [] } [] [] [] 0
    (by decide) (by decide) (by decide) rfl rfl (by decide)
